import Mathlib

/-
Verification development for the pyfltk-helpers repository.

The development shallowly embeds the pieces of the repository that the
claims concern:

* `src/examples/example3.py`: the `Server` (asyncio worker) side — its
  message dispatch `Server.on_msgFromGUI`, the listener loop
  `task_listenToGUI`, the ticker task `task_ticker`, the top-level
  `arun`/`run` routines — and the `GUI` (FLTK view) side — its
  `on_msgFromServer`, `on_btnSend`, `on_btnQuit`, `on_close` and `close`
  callbacks.  Message payloads are Python values; they are embedded as
  the inductive `PyVal` below.  The worker's concurrency is embedded
  twice, at two granularities: a serial channel-event trace
  (`Server.listenTrace`) for the sequential listener behaviour, and a
  small-step interleaving transition system (`stepF`) whose atomic steps
  are the code regions between `await` suspension points, for the
  temporal claims about the ticker, the running flag and the shutdown
  queue.

* `src/fltkHelpers/cursor.py`: the layout-cursor arithmetic
  (`FLCursor.__add__`, `FLCursorRight.__add__`, `FLCursorRight.__sub__`).
-/

/-! Python message values -/

mutual
/--
Embedding of the Python values exchanged over the inter-process pipe in
`example3.py`.  The observed message shapes are `None`, string-keyed
dicts (user-input records and ack replies), strings and numbers; a dict
is embedded as a finite sequence of string-key/value fields
(`PyFields`), keys unique as in a Python dict.
-/
inductive PyVal where
  | pynone : PyVal
  | pystr : String → PyVal
  | pyint : Int → PyVal
  | pydict : PyFields → PyVal
deriving DecidableEq, Repr

/-- The fields of an embedded Python dict, in insertion order. -/
inductive PyFields where
  | fnil : PyFields
  | fcons : String → PyVal → PyFields → PyFields
deriving DecidableEq, Repr
end

/-- First-match lookup in a dict's field list, embedding Python dict
lookup (dict keys are unique, so the first match is the match). -/
def PyFields.lookupKey : PyFields → String → Option PyVal
  | PyFields.fnil, _ => Option.none
  | PyFields.fcons k v rest, key =>
      if k == key then Option.some v else rest.lookupKey key

/--
Embedding of the Python subscript expression `item[key]` as used at
`example3.py:83` (`item['input']`).  `Option.none` models a raised
exception: a `KeyError` when `item` is a dict without the key, or a
`TypeError` when `item` is not a dict at all (`None`, a string or a
number cannot be indexed by a string key).
-/
def PyVal.getItem : PyVal → String → Option PyVal
  | PyVal.pydict kvs, key => kvs.lookupKey key
  | _, _ => Option.none

/-- Embedding of the Python comparison `v == t` against a string literal
`t`: true exactly when `v` is that string (comparing a non-string value
to a string yields `False` in Python, not an error). -/
def pyEqStr (v : PyVal) (t : String) : Bool :=
  match v with
  | PyVal.pystr s => s == t
  | _ => false

/-- The two-field dict literal constructed in `GUI.on_btnSend`
(`example3.py:229-232`): a record with a `time` field and an `input`
field, both strings. -/
def uiMsg (time txt : String) : PyVal :=
  PyVal.pydict (PyFields.fcons "time" (PyVal.pystr time)
    (PyFields.fcons "input" (PyVal.pystr txt) PyFields.fnil))

/-- The reply dict literal constructed in `Server.on_msgFromGUI`
(`example3.py:91`): an acknowledgement wrapping the original payload. -/
def ackReply (item : PyVal) : PyVal :=
  PyVal.pydict (PyFields.fcons "type" (PyVal.pystr "ack")
    (PyFields.fcons "data" item PyFields.fnil))

/-- The termination-request payload of the spec's scenario: a record
whose `input` field is the reserved keyword `quit`. -/
def quitMsg : PyVal :=
  PyVal.pydict (PyFields.fcons "input" (PyVal.pystr "quit") PyFields.fnil)

/-! Worker dispatch, `Server.on_msgFromGUI` (example3.py:74-94) -/

/-- How one call of `Server.on_msgFromGUI` returns: normally, by raising
`QuitException` (caught by the listener loop, which then breaks), or by
raising some other exception (`KeyError`/`TypeError` from
`item['input']`), which nothing in the listener catches. -/
inductive DispatchOutcome where
  | normal : DispatchOutcome
  | quitExc : DispatchOutcome
  | fault : DispatchOutcome
deriving DecidableEq, Repr

/-- The externally visible effects of one call of
`Server.on_msgFromGUI`: the final value of the running flag, how many
times `qQuit.put(None)` was called, whether `task_ticker.cancel()` was
called, the messages written to the GUI (in order), and how the call
returned. -/
structure DispatchResult where
  isRunning : Bool
  qQuitPuts : Nat
  tickerCancelled : Bool
  writes : List PyVal
  outcome : DispatchOutcome
deriving DecidableEq, Repr

/--
Embedding of `Server.on_msgFromGUI` (`example3.py:74-94`), given the
value of `self.isRunning` on entry and the received `item`:

* `item is None`: set `isRunning` false, `qQuit.put(None)`, cancel the
  ticker task, raise `QuitException` — nothing is written to the GUI;
* otherwise evaluate `item['input']` (which raises if `item` is not a
  dict with an `input` field); if it equals `'quit'`: write `None` to
  the GUI, `qQuit.put(None)`, raise `QuitException`;
* any other message: write the ack reply wrapping `item` and return
  normally.
-/
def Server.on_msgFromGUI (isRunning : Bool) (item : PyVal) : DispatchResult :=
  match item with
  | PyVal.pynone =>
      { isRunning := false, qQuitPuts := 1, tickerCancelled := true,
        writes := [], outcome := DispatchOutcome.quitExc }
  | _ =>
      match item.getItem "input" with
      | Option.none =>
          { isRunning := isRunning, qQuitPuts := 0, tickerCancelled := false,
            writes := [], outcome := DispatchOutcome.fault }
      | Option.some v =>
          if pyEqStr v "quit" then
            { isRunning := isRunning, qQuitPuts := 1, tickerCancelled := false,
              writes := [PyVal.pynone], outcome := DispatchOutcome.quitExc }
          else
            { isRunning := isRunning, qQuitPuts := 0, tickerCancelled := false,
              writes := [ackReply item], outcome := DispatchOutcome.normal }

/-! The listener loop as a channel-event trace
(`Server.task_listenToGUI`, example3.py:61-72) -/

/-- One observable event on the worker's end of the pipe: a receive from
the GUI or a send to the GUI. -/
inductive ChEv where
  | recv : PyVal → ChEv
  | send : PyVal → ChEv
deriving DecidableEq, Repr

/--
The channel-event trace of `Server.task_listenToGUI`
(`example3.py:61-72`) run over a stream of inbound messages: while
`isRunning`, receive the next message and dispatch it with
`on_msgFromGUI`; the dispatch's writes follow the receive; a normal
return continues the loop with the dispatch's running flag,
`QuitException` breaks the loop, and any other exception kills the
listener task.  An exhausted stream means the listener is still blocked
in `pipe.recv` with no further channel events.
-/
def Server.listenTrace (isRunning : Bool) : List PyVal → List ChEv
  | [] => []
  | m :: rest =>
      if isRunning then
        let r := Server.on_msgFromGUI isRunning m
        (ChEv.recv m :: r.writes.map ChEv.send) ++
          (match r.outcome with
           | DispatchOutcome.normal => Server.listenTrace r.isRunning rest
           | DispatchOutcome.quitExc => []
           | DispatchOutcome.fault => [])
      else []

/-- Checker for strict request/reply alternation of a channel trace:
every receive is followed by exactly one send before the next receive. -/
def strictRequestReply : List ChEv → Bool
  | [] => true
  | ChEv.recv _ :: ChEv.send _ :: rest => strictRequestReply rest
  | _ => false

example :
    Server.listenTrace true [uiMsg "10:00:00" "hello"] =
      [ChEv.recv (uiMsg "10:00:00" "hello"),
       ChEv.send (ackReply (uiMsg "10:00:00" "hello"))] := by decide

example :
    Server.listenTrace true [uiMsg "10:00:01" "quit", uiMsg "x" "y"] =
      [ChEv.recv (uiMsg "10:00:01" "quit"), ChEv.send PyVal.pynone] := by decide

/-! The GUI side (`class GUI`, example3.py:167-302) -/

/-- The observable state of the GUI process: the messages it has sent to
the server (in order), the last value rendered into the output text
buffer (formatting by `pprint.pformat` is abstracted to the value
itself), and whether the window has been hidden (`win.hide()`), which
makes `fltk.Fl.run()` return and ends the delivery of callbacks. -/
structure GUIState where
  sentToServer : List PyVal
  outBuf : Option PyVal
  closed : Bool
deriving DecidableEq, Repr

/-- Embedding of `GUI.close` (`example3.py:281-284`): send `None` to the
server over the pipe, then hide the window. -/
def GUI.close (g : GUIState) : GUIState :=
  { g with sentToServer := g.sentToServer ++ [PyVal.pynone], closed := true }

/-- Embedding of `GUI.on_msgFromServer` (`example3.py:250-263`): on
`None`, call `close`; on any other item, re-render the output buffer
with the item. -/
def GUI.on_msgFromServer (g : GUIState) (item : PyVal) : GUIState :=
  match item with
  | PyVal.pynone => GUI.close g
  | _ => { g with outBuf := Option.some item }

/-- Embedding of `GUI.on_btnSend` (`example3.py:223-235`): build the
record of the current timestamp and input-field text and send it to the
server.  The timestamp and the input field's text are parameters, since
they come from the clock and the widget. -/
def GUI.on_btnSend (g : GUIState) (time txt : String) : GUIState :=
  { g with sentToServer := g.sentToServer ++ [uiMsg time txt] }

/-- Embedding of `GUI.on_close` (`example3.py:272-279`), the
window-close callback: it calls `close`. -/
def GUI.on_close (g : GUIState) : GUIState :=
  GUI.close g

/-- Embedding of `GUI.on_btnQuit` (`example3.py:265-270`): it calls
`on_close`. -/
def GUI.on_btnQuit (g : GUIState) : GUIState :=
  GUI.on_close g

/-- One callback deliverable to the GUI by the FLTK event loop: a Send
click (with clock time and field text), a Quit click, a window close, or
an inbound message drained from the pipe by `on_idle`
(`example3.py:237-248`). -/
inductive GEvent where
  | btnSend : String → String → GEvent
  | btnQuit : GEvent
  | winClose : GEvent
  | fromServer : PyVal → GEvent
deriving DecidableEq, Repr

/-- Dispatch of one FLTK callback to the corresponding `GUI` handler. -/
def GUI.handleEvent (g : GUIState) : GEvent → GUIState
  | GEvent.btnSend t s => GUI.on_btnSend g t s
  | GEvent.btnQuit => GUI.on_btnQuit g
  | GEvent.winClose => GUI.on_close g
  | GEvent.fromServer m => GUI.on_msgFromServer g m

/-- The GUI process's life as the FLTK event loop (`fltk.Fl.run()` in
`GUI.run_`, example3.py:286-290) delivering a sequence of callbacks: once
the window is hidden (`closed`), `Fl.run` has returned and no further
callbacks are delivered. -/
def GUI.runEvents (g : GUIState) : List GEvent → GUIState
  | [] => g
  | e :: rest =>
      if g.closed then g else GUI.runEvents (GUI.handleEvent g e) rest

/-- The GUI's initial state: nothing sent, nothing rendered, window
shown. -/
def GUI.init : GUIState :=
  { sentToServer := [], outBuf := Option.none, closed := false }

/-! Small-step interleaving model of the worker process

`Server.arun` (example3.py:130-148) spawns the listener task and the
ticker task on a single-threaded cooperative scheduler and then awaits
`qQuit.get()`.  The model's atomic steps are the code regions between
`await` suspension points.  Two asyncio facts fix the granularity:
`asyncio.Queue.put` on an unbounded queue never suspends (the queue is
never full), so the whole `None` branch of `on_msgFromGUI` — flag flip,
queue put, ticker cancel, raise — is one atomic step; and
`await writeToGUI(...)` does suspend (the pipe send runs on the thread
pool), splitting the `'quit'` and reply branches in two. -/

/-- Status of the ticker task (`Server.task_ticker`, example3.py:96-104):
sleeping/ready to run its next loop iteration; cancellation requested by
`task_ticker.cancel()` but the `CancelledError` not yet delivered;
cancelled; or completed after observing `isRunning` false. -/
inductive TickerStatus where
  | asleep : TickerStatus
  | cancelRequested : TickerStatus
  | cancelled : TickerStatus
  | completed : TickerStatus
deriving DecidableEq, Repr

/-- Effect of `self.task_ticker.cancel()` (example3.py:80) on the ticker
task's status: a pending task gets a cancellation request; cancelling a
finished or already-cancelled task is a no-op. -/
def cancelTicker : TickerStatus → TickerStatus
  | TickerStatus.asleep => TickerStatus.cancelRequested
  | t => t

/-- Program counter of the listener task (`Server.task_listenToGUI`,
example3.py:61-72), one point per suspension: at the loop head about to
`await readFromGUI()`; suspended in `await writeToGUI(None)` of the
`'quit'` branch; suspended in `await writeToGUI(reply)` of the reply
branch (carrying the reply); finished (loop exit or `QuitException`); or
killed by an uncaught exception from `item['input']`. -/
inductive LPC where
  | atRead : LPC
  | writingQuit : LPC
  | writingReply : PyVal → LPC
  | done : LPC
  | faulted : LPC
deriving DecidableEq, Repr

/-- State of the worker process after `arun` has spawned its tasks:
the running flag, the number of items in the `qQuit` queue, the messages
sent to the GUI so far, the inbound messages not yet received, the
number of liveness ticks printed, the listener's program counter, the
ticker's status, whether `arun`'s final `await qQuit.get()` has
returned, and whether the listener has dispatched a `None` from the
GUI. -/
structure WState where
  isRunning : Bool
  qQuit : Nat
  sent : List PyVal
  inbox : List PyVal
  ticks : Nat
  lpc : LPC
  tickerStatus : TickerStatus
  mainDone : Bool
  gotNone : Bool
deriving DecidableEq, Repr

/-- The three logical tasks of the worker's cooperative scheduler that a
step can be given to: the listener, the ticker, and `arun`'s tail await. -/
inductive Choice where
  | listener : Choice
  | ticker : Choice
  | main : Choice
deriving DecidableEq, Repr

/--
One atomic scheduler step of the chosen task, `Option.none` when that
task has no enabled step (it is blocked, finished, or its wake condition
is not met):

* listener at the loop head: if `isRunning` fails the loop exits;
  otherwise, when a message is available, `readFromGUI` completes and
  `on_msgFromGUI` runs to its first suspension — the whole `None` branch
  (atomic, as `qQuit.put` never suspends), the fault from
  `item['input']`, or entry into a `writeToGUI` suspension;
* listener in a `writeToGUI` suspension: the pipe send completes and the
  task resumes — in the `'quit'` branch through `qQuit.put` and
  `QuitException` to the break, in the reply branch back to the loop
  head;
* ticker: a pending cancellation is delivered inside `asyncio.sleep`;
  otherwise the sleep elapses and the loop either prints a tick (flag
  still true) or finishes (flag false);
* main: `await qQuit.get()` completes when the queue is non-empty, and
  `arun` returns.
-/
def stepF (c : Choice) (s : WState) : Option WState :=
  match c with
  | Choice.listener =>
      match s.lpc with
      | LPC.atRead =>
          if s.isRunning then
            match s.inbox with
            | [] => Option.none
            | m :: rest =>
                match m with
                | PyVal.pynone =>
                    Option.some
                      { s with
                          isRunning := false
                          inbox := rest
                          qQuit := s.qQuit + 1
                          tickerStatus := cancelTicker s.tickerStatus
                          lpc := LPC.done
                          gotNone := true }
                | _ =>
                    match m.getItem "input" with
                    | Option.none =>
                        Option.some { s with inbox := rest, lpc := LPC.faulted }
                    | Option.some v =>
                        if pyEqStr v "quit" then
                          Option.some { s with inbox := rest, lpc := LPC.writingQuit }
                        else
                          Option.some
                            { s with
                                inbox := rest
                                lpc := LPC.writingReply (ackReply m) }
          else Option.some { s with lpc := LPC.done }
      | LPC.writingQuit =>
          Option.some
            { s with
                sent := s.sent ++ [PyVal.pynone]
                qQuit := s.qQuit + 1
                lpc := LPC.done }
      | LPC.writingReply r =>
          Option.some { s with sent := s.sent ++ [r], lpc := LPC.atRead }
      | LPC.done => Option.none
      | LPC.faulted => Option.none
  | Choice.ticker =>
      match s.tickerStatus with
      | TickerStatus.asleep =>
          if s.isRunning then Option.some { s with ticks := s.ticks + 1 }
          else Option.some { s with tickerStatus := TickerStatus.completed }
      | TickerStatus.cancelRequested =>
          Option.some { s with tickerStatus := TickerStatus.cancelled }
      | TickerStatus.cancelled => Option.none
      | TickerStatus.completed => Option.none
  | Choice.main =>
      match s.qQuit with
      | 0 => Option.none
      | Nat.succ n =>
          if s.mainDone then Option.none
          else Option.some { s with qQuit := n, mainDone := true }

/-- The worker's state right after `arun` has created its resources and
spawned the listener and ticker tasks (example3.py:136-145), with the
given stream of messages the GUI will send. -/
def initW (msgs : List PyVal) : WState :=
  { isRunning := true, qQuit := 0, sent := [], inbox := msgs, ticks := 0,
    lpc := LPC.atRead, tickerStatus := TickerStatus.asleep,
    mainDone := false, gotNone := false }

/-- Run a concrete schedule of task choices from a state, failing if a
chosen task has no enabled step. -/
def runTrace (cs : List Choice) (s : WState) : Option WState :=
  match cs with
  | [] => Option.some s
  | c :: rest =>
      match stepF c s with
      | Option.some s2 => runTrace rest s2
      | Option.none => Option.none

/-- One scheduler step by some task. -/
def StepRel (s s2 : WState) : Prop :=
  ∃ c, stepF c s = Option.some s2

/-- Zero or more scheduler steps. -/
def Reach : WState → WState → Prop :=
  Relation.ReflTransGen StepRel

/-! The process boundary, `Server.run` (example3.py:150-165) -/

/-- How `asyncio.run(inst.arun())` ends: the coroutine completed, or an
exception escaped it. -/
inductive ARunOutcome where
  | completed : ARunOutcome
  | fault : ARunOutcome
deriving DecidableEq, Repr

/-- The observable behaviour of one call of `Server.run`: whether the
traceback was printed, which of the two progress lines was printed, and
whether an exception propagated out of `Server.run` to its caller. -/
structure RunReport where
  loggedTraceback : Bool
  printedCrashed : Bool
  printedNormal : Bool
  propagated : Bool
deriving DecidableEq, Repr

/-- Embedding of the classmethod `Server.run` (`example3.py:150-165`):
it wraps `asyncio.run(inst.arun())` in a bare try/except; on success it
prints the normal-termination line; on any exception it prints the
traceback and the crashed line — and returns normally, propagating
nothing in either case. -/
def Server.run (outcome : ARunOutcome) : RunReport :=
  match outcome with
  | ARunOutcome.completed =>
      { loggedTraceback := false, printedCrashed := false,
        printedNormal := true, propagated := false }
  | ARunOutcome.fault =>
      { loggedTraceback := true, printedCrashed := true,
        printedNormal := false, propagated := false }

/-- The Python runtime rule for the exit status of the worker process:
`Server.run` is invoked from `main` via `ProcessPair.run`
(`example3.py:341,345-349`); a `main` that returns normally makes the
process exit with status `0`, and an exception escaping to the top level
makes it exit with status `1`. -/
def processExitStatus (r : RunReport) : Nat :=
  if r.propagated then 1 else 0

/-! Layout-cursor arithmetic (`src/fltkHelpers/cursor.py`) -/

/-- The data carried by an `FLCursor` instance (`cursor.py:15-38`): the
absolute coordinates and the spacing.  The subclasses `FLCursorRight`
and `FLCursorDown` add no data, only method overrides, so one carrier
type serves all three classes, with each class's methods embedded as
separate functions.  Coordinates are embedded as integers (every
coordinate built by the repository is an integer). -/
structure FLCursor where
  x : Int
  y : Int
  spacing : Int
deriving DecidableEq, Repr

/-- `FLCursor.defaultSpacing` (`cursor.py:13`). -/
def FLCursor.defaultSpacing : Int := 5

/-- The kinds of `offset` argument the `+` and `-` overloads of the
cursor classes distinguish (`cursor.py:40-68,174-204`): a single number
(int/float), a list/tuple pair, or another cursor object. -/
inductive FLOffset where
  | num : Int → FLOffset
  | pair : Int → Int → FLOffset
  | cursor : FLCursor → FLOffset
deriving DecidableEq, Repr

/-- Embedding of `FLCursor.__add__` (`cursor.py:55-68`): a list/tuple or
cursor offset is added componentwise, producing an instance of
`self.__class__` built with two positional arguments, so its spacing is
the default; a single number raises `TypeError` (`Except.error`). -/
def FLCursor.add (self : FLCursor) (offset : FLOffset) : Except String FLCursor :=
  match offset with
  | FLOffset.pair a b =>
      Except.ok { x := self.x + a, y := self.y + b, spacing := FLCursor.defaultSpacing }
  | FLOffset.cursor c =>
      Except.ok { x := self.x + c.x, y := self.y + c.y, spacing := FLCursor.defaultSpacing }
  | FLOffset.num _ => Except.error "TypeError"

/-- Embedding of `FLCursor.__sub__` (`cursor.py:40-53`): componentwise
subtraction for list/tuple and cursor offsets, `TypeError` for a single
number. -/
def FLCursor.sub (self : FLCursor) (offset : FLOffset) : Except String FLCursor :=
  match offset with
  | FLOffset.pair a b =>
      Except.ok { x := self.x - a, y := self.y - b, spacing := FLCursor.defaultSpacing }
  | FLOffset.cursor c =>
      Except.ok { x := self.x - c.x, y := self.y - c.y, spacing := FLCursor.defaultSpacing }
  | FLOffset.num _ => Except.error "TypeError"

/-- Embedding of `FLCursorRight.__add__` (`cursor.py:174-179`): a single
number is taken as a dx, keeping `self.spacing`; any other offset is
delegated to `FLCursor.__add__`. -/
def FLCursorRight.add (self : FLCursor) (offset : FLOffset) : Except String FLCursor :=
  match offset with
  | FLOffset.num n =>
      Except.ok { x := self.x + n, y := self.y, spacing := self.spacing }
  | _ => FLCursor.add self offset

/-- Embedding of `FLCursorRight.__sub__` (`cursor.py:181-186`): a single
number is taken as a dx (the two-argument constructor call gives the
default spacing); for any other offset the source returns
`super().__add__(offset)` — the base-class addition, not subtraction. -/
def FLCursorRight.sub (self : FLCursor) (offset : FLOffset) : Except String FLCursor :=
  match offset with
  | FLOffset.num n =>
      Except.ok { x := self.x - n, y := self.y, spacing := FLCursor.defaultSpacing }
  | _ => FLCursor.add self offset

/-! Claim theorems: dispatch-level claims -/

/--
Claim C3: when the worker receives the `None` sentinel from the UI, its
dispatch sets the running flag false, cancels the ticker task, signals
scheduler shutdown (one `qQuit.put`), and stops listening (the listener
loop produces no further channel events after the receive).
-/
theorem C3_none_dispatch_shuts_down (isR : Bool) (rest : List PyVal) :
    Server.on_msgFromGUI isR PyVal.pynone =
      { isRunning := false, qQuitPuts := 1, tickerCancelled := true,
        writes := [], outcome := DispatchOutcome.quitExc } ∧
    Server.listenTrace true (PyVal.pynone :: rest) = [ChEv.recv PyVal.pynone] :=
  ⟨rfl, rfl⟩

/-- Witness for C3 at a concrete running flag and tail. -/
theorem C3_none_dispatch_shuts_down_witness :
    Server.on_msgFromGUI true PyVal.pynone =
      { isRunning := false, qQuitPuts := 1, tickerCancelled := true,
        writes := [], outcome := DispatchOutcome.quitExc } ∧
    Server.listenTrace true (PyVal.pynone :: [uiMsg "a" "b"]) =
      [ChEv.recv PyVal.pynone] :=
  C3_none_dispatch_shuts_down true [uiMsg "a" "b"]

/--
Claim C4: for every non-`None` message `m` whose `input` field exists
and is not the reserved keyword `quit`, the worker synchronously
computes and sends back exactly the reply dict with a `type` field equal
to `ack` and a `data` field wrapping the original payload, returning
normally with no shutdown effects.
-/
theorem C4_ack_reply (isR : Bool) (m v : PyVal)
    (h : m.getItem "input" = Option.some v)
    (hq : pyEqStr v "quit" = false) :
    Server.on_msgFromGUI isR m =
      { isRunning := isR, qQuitPuts := 0, tickerCancelled := false,
        writes := [PyVal.pydict (PyFields.fcons "type" (PyVal.pystr "ack")
          (PyFields.fcons "data" m PyFields.fnil))],
        outcome := DispatchOutcome.normal } := by
  cases m with
  | pynone => simp [PyVal.getItem] at h
  | pystr s => simp [PyVal.getItem] at h
  | pyint n => simp [PyVal.getItem] at h
  | pydict kvs =>
      simp [Server.on_msgFromGUI, PyVal.getItem] at h ⊢
      simp [h, hq, ackReply]

/-- Witness for C4 at the spec's scenario message. -/
theorem C4_ack_reply_witness :
    (uiMsg "10:00:00" "hello").getItem "input" = Option.some (PyVal.pystr "hello") ∧
    pyEqStr (PyVal.pystr "hello") "quit" = false ∧
    Server.on_msgFromGUI true (uiMsg "10:00:00" "hello") =
      { isRunning := true, qQuitPuts := 0, tickerCancelled := false,
        writes := [PyVal.pydict (PyFields.fcons "type" (PyVal.pystr "ack")
          (PyFields.fcons "data" (uiMsg "10:00:00" "hello") PyFields.fnil))],
        outcome := DispatchOutcome.normal } :=
  ⟨by decide, by decide,
   C4_ack_reply true (uiMsg "10:00:00" "hello") (PyVal.pystr "hello")
     (by decide) (by decide)⟩

/--
Claim C9 counterexample: the claim says every non-`None`
structurally-comparable value is handled by the worker's dispatch
without an unhandled fault.  It is false: the dict with a single `data`
field — perfectly serializable and non-`None` — makes `item['input']`
raise a `KeyError`, which nothing in the listener catches.
-/
theorem C9_counterexample :
    (Server.on_msgFromGUI true
        (PyVal.pydict (PyFields.fcons "data" (PyVal.pyint 1) PyFields.fnil))).outcome =
      DispatchOutcome.fault := by
  decide

/--
Claim C9 (amended): a non-`None` message is dispatched without an
unhandled fault exactly when `item['input']` succeeds, i.e. when the
message is a dict with an `input` field — which every record the UI's
send button constructs is; no further schema is enforced on it.
-/
theorem C9_input_field_dispatch_no_fault (isR : Bool) (m v : PyVal)
    (h : m.getItem "input" = Option.some v) :
    (Server.on_msgFromGUI isR m).outcome ≠ DispatchOutcome.fault ∧
    (∀ t s : String, (Server.on_msgFromGUI isR (uiMsg t s)).outcome ≠ DispatchOutcome.fault) := by
  constructor
  · cases m with
    | pynone => simp [PyVal.getItem] at h
    | pystr s => simp [PyVal.getItem] at h
    | pyint n => simp [PyVal.getItem] at h
    | pydict kvs =>
        simp [Server.on_msgFromGUI, PyVal.getItem] at h ⊢
        simp [h]
        by_cases hq : pyEqStr v "quit" = true <;> simp [hq]
  · intro t s
    simp [Server.on_msgFromGUI, uiMsg, PyVal.getItem, PyFields.lookupKey]
    by_cases hq : pyEqStr (PyVal.pystr s) "quit" = true <;> simp [hq]

/-- Witness for the amended C9 at a concrete message with an `input`
field. -/
theorem C9_input_field_dispatch_no_fault_witness :
    (uiMsg "10:00:00" "hello").getItem "input" = Option.some (PyVal.pystr "hello") ∧
    (Server.on_msgFromGUI true (uiMsg "10:00:00" "hello")).outcome ≠ DispatchOutcome.fault := by
  refine ⟨by decide, ?_⟩
  exact (C9_input_field_dispatch_no_fault true (uiMsg "10:00:00" "hello")
    (PyVal.pystr "hello") (by decide)).1

/--
Claim C2 counterexample: the claim says the UI, on receiving the `None`
sentinel, closes without sending further messages.  In fact
`GUI.on_msgFromServer` applied to `None` calls `GUI.close`, which first
sends `None` back to the server over the pipe and only then hides the
window: starting from the GUI's initial state, after receiving `None`
the outbound list has grown by one message.
-/
theorem C2_counterexample :
    (GUI.on_msgFromServer GUI.init PyVal.pynone).closed = true ∧
    (GUI.on_msgFromServer GUI.init PyVal.pynone).sentToServer ≠
      GUI.init.sentToServer := by
  exact ⟨rfl, by decide⟩

/--
Claim C2 (amended): when the worker receives a message whose `input`
field equals the reserved keyword `quit`, it sends `None` to the UI,
signals scheduler shutdown and stops listening; the UI, on receiving
that `None`, closes and sends no further application messages — it does
send exactly one final `None` sentinel back over the pipe as an
acknowledgement-of-close before hiding the window, after which no
further callbacks run.
-/
theorem C2_quit_roundtrip (isR : Bool) (rest : List PyVal) (g : GUIState)
    (evs : List GEvent) :
    Server.on_msgFromGUI isR quitMsg =
      { isRunning := isR, qQuitPuts := 1, tickerCancelled := false,
        writes := [PyVal.pynone], outcome := DispatchOutcome.quitExc } ∧
    Server.listenTrace true (quitMsg :: rest) =
      [ChEv.recv quitMsg, ChEv.send PyVal.pynone] ∧
    GUI.on_msgFromServer g PyVal.pynone =
      { g with sentToServer := g.sentToServer ++ [PyVal.pynone], closed := true } ∧
    (g.closed = true → GUI.runEvents g evs = g) := by
  refine ⟨rfl, rfl, rfl, ?_⟩
  intro hc
  cases evs with
  | nil => rfl
  | cons e tail => simp [GUI.runEvents, hc]

/-- Witness for the amended C2 at concrete states. -/
theorem C2_quit_roundtrip_witness :
    Server.on_msgFromGUI true quitMsg =
      { isRunning := true, qQuitPuts := 1, tickerCancelled := false,
        writes := [PyVal.pynone], outcome := DispatchOutcome.quitExc } ∧
    Server.listenTrace true (quitMsg :: []) =
      [ChEv.recv quitMsg, ChEv.send PyVal.pynone] ∧
    GUI.on_msgFromServer (GUI.close GUI.init) PyVal.pynone =
      { GUI.close GUI.init with
          sentToServer := (GUI.close GUI.init).sentToServer ++ [PyVal.pynone]
          closed := true } ∧
    ((GUI.close GUI.init).closed = true →
      GUI.runEvents (GUI.close GUI.init) [GEvent.btnQuit] = GUI.close GUI.init) :=
  C2_quit_roundtrip true [] (GUI.close GUI.init) [GEvent.btnQuit]

/--
Claim C8 counterexample: the claim says an unhandled fault inside the
worker's top-level run routine makes the worker process exit with a
non-clean status.  In fact `Server.run` catches the fault with a bare
try/except, prints the traceback and the crashed line, and then returns
normally, so nothing propagates to `main` and the process exit status is
the clean `0`.
-/
theorem C8_counterexample :
    Server.run ARunOutcome.fault =
      { loggedTraceback := true, printedCrashed := true,
        printedNormal := false, propagated := false } ∧
    processExitStatus (Server.run ARunOutcome.fault) = 0 :=
  ⟨rfl, rfl⟩

/--
Claim C8 (amended): every unhandled fault raised inside the worker's
top-level run routine is caught at the process boundary by
`Server.run`'s bare try/except and logged (traceback plus crashed line),
but the handler swallows it, so the worker process then exits with the
clean status `0`, not a non-clean one.
-/
theorem C8_fault_caught_logged_clean_exit (o : ARunOutcome) :
    (Server.run o).propagated = false ∧
    processExitStatus (Server.run o) = 0 ∧
    (o = ARunOutcome.fault →
      (Server.run o).loggedTraceback = true ∧ (Server.run o).printedCrashed = true) := by
  cases o with
  | completed => exact ⟨rfl, rfl, fun h => by cases h⟩
  | fault => exact ⟨rfl, rfl, fun _ => ⟨rfl, rfl⟩⟩

/-- Witness for the amended C8 on the faulting outcome. -/
theorem C8_fault_caught_logged_clean_exit_witness :
    (Server.run ARunOutcome.fault).propagated = false ∧
    processExitStatus (Server.run ARunOutcome.fault) = 0 ∧
    (ARunOutcome.fault = ARunOutcome.fault →
      (Server.run ARunOutcome.fault).loggedTraceback = true ∧
      (Server.run ARunOutcome.fault).printedCrashed = true) :=
  C8_fault_caught_logged_clean_exit ARunOutcome.fault

/--
Claim C10: for every `FLCursorRight` cursor `r` and every non-numeric
offset — a list/tuple pair or a cursor — the subtraction `r - offset`
returns a cursor with coordinates componentwise ADDED, because
`FLCursorRight.__sub__` delegates its non-numeric case to
`super().__add__`: the result coincides with `r + offset` and has
coordinates `(r.x + a, r.y + b)`.
-/
theorem C10_flcursorright_sub_adds (r : FLCursor) (a b : Int) (c : FLCursor) :
    FLCursorRight.sub r (FLOffset.pair a b) = FLCursor.add r (FLOffset.pair a b) ∧
    FLCursorRight.sub r (FLOffset.pair a b) =
      Except.ok { x := r.x + a, y := r.y + b, spacing := FLCursor.defaultSpacing } ∧
    FLCursorRight.sub r (FLOffset.cursor c) = FLCursor.add r (FLOffset.cursor c) ∧
    FLCursorRight.sub r (FLOffset.cursor c) =
      Except.ok { x := r.x + c.x, y := r.y + c.y, spacing := FLCursor.defaultSpacing } :=
  ⟨rfl, rfl, rfl, rfl⟩

/-- Witness for C10 at concrete cursors and offsets. -/
theorem C10_flcursorright_sub_adds_witness :
    FLCursorRight.sub ⟨10, 20, 5⟩ (FLOffset.pair 3 4) =
      FLCursor.add ⟨10, 20, 5⟩ (FLOffset.pair 3 4) ∧
    FLCursorRight.sub ⟨10, 20, 5⟩ (FLOffset.pair 3 4) =
      Except.ok ⟨13, 24, 5⟩ ∧
    FLCursorRight.sub ⟨10, 20, 5⟩ (FLOffset.cursor ⟨7, 8, 2⟩) =
      FLCursor.add ⟨10, 20, 5⟩ (FLOffset.cursor ⟨7, 8, 2⟩) ∧
    FLCursorRight.sub ⟨10, 20, 5⟩ (FLOffset.cursor ⟨7, 8, 2⟩) =
      Except.ok ⟨17, 28, 5⟩ :=
  C10_flcursorright_sub_adds ⟨10, 20, 5⟩ 3 4 ⟨7, 8, 2⟩

/--
Claim C1: for every stream of non-`None` messages of the shape the UI
sends (records with a `time` and an `input` field), the worker's single
listener alternates strictly: each receive is followed by exactly one
send — the ack reply, or the `None` sentinel when the input is the
reserved `quit` keyword — before the next inbound message is received.
-/
theorem C1_strict_request_reply (ps : List (String × String)) :
    strictRequestReply
      (Server.listenTrace true (ps.map fun p => uiMsg p.1 p.2)) = true := by
  induction ps with
  | nil => rfl
  | cons p rest ih =>
      simp only [List.map_cons, Server.listenTrace, Server.on_msgFromGUI, uiMsg,
        PyVal.getItem, PyFields.lookupKey, pyEqStr, if_true]
      by_cases hq : p.2 == "quit"
      · simp [hq, strictRequestReply]
      · simp only [Bool.not_eq_true] at hq
        simp [hq, strictRequestReply]
        exact ih

/-- Witness for C1 at the spec's scenario stream: a hello message
followed by a quit request. -/
theorem C1_strict_request_reply_witness :
    strictRequestReply
      (Server.listenTrace true
        ([("10:00:00", "hello"), ("10:00:05", "quit")].map fun p => uiMsg p.1 p.2)) = true :=
  C1_strict_request_reply [("10:00:00", "hello"), ("10:00:05", "quit")]

/--
Claim C7: in every execution of the worker, a liveness tick is only ever
emitted in a state where the running flag is true and the ticker is
still pending; the step that flips the running flag to false delivers
the cancellation request to the ticker in that very step (the `None`
branch of the dispatch runs atomically, since `qQuit.put` on an
unbounded queue never suspends), so the ticker is cancelled within one
scheduling step of the flip — and a ticker that is no longer pending
never ticks again.
-/
theorem C7_ticker_stops_with_flag (s : WState) (c : Choice) (s2 : WState)
    (h : stepF c s = Option.some s2) :
    (s2.ticks ≠ s.ticks →
      s.isRunning = true ∧ s.tickerStatus = TickerStatus.asleep) ∧
    (s.isRunning = true ∧ s2.isRunning = false →
      s2.tickerStatus ≠ TickerStatus.asleep ∧
      (s.tickerStatus = TickerStatus.asleep →
        s2.tickerStatus = TickerStatus.cancelRequested)) ∧
    (s.tickerStatus ≠ TickerStatus.asleep →
      s2.ticks = s.ticks ∧ s2.tickerStatus ≠ TickerStatus.asleep) := by
  cases c <;> simp only [stepF] at h <;> repeat' split at h
  all_goals (try exact Option.noConfusion h)
  all_goals (injection h with h; subst h)
  all_goals (cases hts : s.tickerStatus <;> simp_all [cancelTicker])

/-- Witness for C7: a concrete ticker step from the initial state. -/
theorem C7_ticker_stops_with_flag_witness :
    (({ initW [] with ticks := 1 } : WState).ticks ≠ (initW []).ticks →
      (initW []).isRunning = true ∧
      (initW []).tickerStatus = TickerStatus.asleep) ∧
    ((initW []).isRunning = true ∧
        ({ initW [] with ticks := 1 } : WState).isRunning = false →
      ({ initW [] with ticks := 1 } : WState).tickerStatus ≠ TickerStatus.asleep ∧
      ((initW []).tickerStatus = TickerStatus.asleep →
        ({ initW [] with ticks := 1 } : WState).tickerStatus =
          TickerStatus.cancelRequested)) ∧
    ((initW []).tickerStatus ≠ TickerStatus.asleep →
      ({ initW [] with ticks := 1 } : WState).ticks = (initW []).ticks ∧
      ({ initW [] with ticks := 1 } : WState).tickerStatus ≠ TickerStatus.asleep) :=
  C7_ticker_stops_with_flag (initW []) Choice.ticker
    { initW [] with ticks := 1 } (by decide)

/-! Reachability invariants of the worker model -/

/--
The safety invariant of the worker model: a dispatched `None` implies
the shutdown signal has been posted (or already consumed by `arun`);
a posted or consumed shutdown signal implies the listener has already
completed; a `None` sentinel in the outbound list implies the listener
has already completed; a pending reply write is never the `None`
sentinel; and a false running flag implies the ticker is no longer
pending (cancellation requested or delivered, or completed).
-/
def WInv (s : WState) : Prop :=
  (s.gotNone = true → 1 ≤ s.qQuit ∨ s.mainDone = true) ∧
  (1 ≤ s.qQuit ∨ s.mainDone = true → s.lpc = LPC.done) ∧
  (PyVal.pynone ∈ s.sent → s.lpc = LPC.done) ∧
  (∀ r, s.lpc = LPC.writingReply r → r ≠ PyVal.pynone) ∧
  (s.isRunning = false → s.tickerStatus ≠ TickerStatus.asleep)

/-- The invariant holds initially. -/
theorem WInv_init (msgs : List PyVal) : WInv (initW msgs) := by
  simp [WInv, initW]

/-- The invariant is preserved by every scheduler step. -/
theorem WInv_step (s s2 : WState) (c : Choice) (h : stepF c s = Option.some s2)
    (hi : WInv s) : WInv s2 := by
  obtain ⟨h1, h2, h3, h4, h5⟩ := hi
  cases c <;> simp only [stepF] at h <;> repeat' split at h
  all_goals (try exact Option.noConfusion h)
  all_goals (injection h with h; subst h)
  all_goals refine ⟨?_, ?_, ?_, ?_, ?_⟩
  all_goals (cases hts : s.tickerStatus <;> simp_all [WInv, cancelTicker, ackReply])
  all_goals exact fun hh => h4 hh.symm

/-- The invariant holds in every state reachable from the initial one. -/
theorem WInv_reach (msgs : List PyVal) (s : WState)
    (hr : Reach (initW msgs) s) : WInv s := by
  induction hr with
  | refl => exact WInv_init msgs
  | tail _ hstep ih =>
      obtain ⟨c, hc⟩ := hstep
      exact WInv_step _ _ c hc ih

/-- Once the listener has completed, no later step changes the outbound
list: the listener is the only task that writes to the pipe, and it
never runs again. -/
theorem sent_frozen_of_done (s s2 : WState) (hd : s.lpc = LPC.done)
    (hr : Reach s s2) : s2.sent = s.sent ∧ s2.lpc = LPC.done := by
  induction hr with
  | refl => exact ⟨rfl, hd⟩
  | tail _ hstep ih =>
      obtain ⟨hsent, hlpc⟩ := ih
      obtain ⟨c, hc⟩ := hstep
      cases c <;> simp only [stepF] at hc <;> repeat' split at hc
      all_goals (try exact Option.noConfusion hc)
      all_goals (injection hc with hc; subst hc)
      all_goals simp_all

/--
Claim C5: in every execution, a side that has sent or received the
`None` sentinel sends nothing further on the channel, and the other side
also terminates.  Worker side (over all task interleavings): once the
worker has dispatched an inbound `None`, or once the `None` it sends on
the quit path is in the outbound list, its listener has completed, the
outbound list never changes again, and the shutdown signal has been
posted for `arun` (or already consumed by it) — receiving `None` makes
the worker terminate.  GUI side: receiving `None` closes the window,
appending only the `None` close-acknowledgement sentinel — no
application message — and once closed, the FLTK loop delivers no further
callbacks, so nothing further is sent.
-/
theorem C5_none_is_terminal (msgs : List PyVal) (s s2 : WState)
    (hr : Reach (initW msgs) s)
    (hn : s.gotNone = true ∨ PyVal.pynone ∈ s.sent)
    (hr2 : Reach s s2) (g : GUIState) (evs : List GEvent) :
    s2.sent = s.sent ∧
    s2.lpc = LPC.done ∧
    (s.gotNone = true → 1 ≤ s.qQuit ∨ s.mainDone = true) ∧
    GUI.on_msgFromServer g PyVal.pynone =
      { g with sentToServer := g.sentToServer ++ [PyVal.pynone], closed := true } ∧
    (GUI.on_msgFromServer g PyVal.pynone).closed = true ∧
    (g.closed = true → GUI.runEvents g evs = g) := by
  obtain ⟨h1, h2, h3, _, _⟩ := WInv_reach msgs s hr
  have hd : s.lpc = LPC.done := by
    cases hn with
    | inl hg => exact h2 (h1 hg)
    | inr hs => exact h3 hs
  obtain ⟨hsent, hlpc⟩ := sent_frozen_of_done s s2 hd hr2
  refine ⟨hsent, hlpc, h1, rfl, rfl, ?_⟩
  intro hc
  cases evs with
  | nil => rfl
  | cons e tail => simp [GUI.runEvents, hc]

/-- Witness for C5: the worker after dispatching a lone `None`, with the
GUI in its initial state. -/
theorem C5_none_is_terminal_witness :
    Reach (initW [PyVal.pynone])
      { isRunning := false, qQuit := 1, sent := [], inbox := [], ticks := 0,
        lpc := LPC.done, tickerStatus := TickerStatus.cancelRequested,
        mainDone := false, gotNone := true } ∧
    (({ isRunning := false, qQuit := 1, sent := [], inbox := [], ticks := 0,
        lpc := LPC.done, tickerStatus := TickerStatus.cancelRequested,
        mainDone := false, gotNone := true } : WState).sent = [] ∧
     LPC.done = LPC.done ∧
     (true = true → 1 ≤ 1 ∨ false = true) ∧
     GUI.on_msgFromServer GUI.init PyVal.pynone =
       { GUI.init with
           sentToServer := GUI.init.sentToServer ++ [PyVal.pynone]
           closed := true } ∧
     (GUI.on_msgFromServer GUI.init PyVal.pynone).closed = true ∧
     (GUI.init.closed = true → GUI.runEvents GUI.init [] = GUI.init)) := by
  have hstep : StepRel (initW [PyVal.pynone])
      { isRunning := false, qQuit := 1, sent := [], inbox := [], ticks := 0,
        lpc := LPC.done, tickerStatus := TickerStatus.cancelRequested,
        mainDone := false, gotNone := true } :=
    ⟨Choice.listener, by decide⟩
  have hr : Reach (initW [PyVal.pynone])
      { isRunning := false, qQuit := 1, sent := [], inbox := [], ticks := 0,
        lpc := LPC.done, tickerStatus := TickerStatus.cancelRequested,
        mainDone := false, gotNone := true } :=
    Relation.ReflTransGen.single hstep
  refine ⟨hr, ?_⟩
  exact C5_none_is_terminal [PyVal.pynone] _ _ hr (Or.inl rfl)
    Relation.ReflTransGen.refl GUI.init []

/--
Claim C6 counterexample: on the `quit` shutdown path the claim is false.
Concrete schedule, starting with the GUI's quit request as the only
inbound message: the listener reads it and starts writing `None`; the
write completes and the listener posts the shutdown signal and breaks;
`arun`'s `await qQuit.get()` then returns.  At that point — the
top-level run routine has returned — the ticker task has been neither
cancelled nor completed: it is still pending in its sleep (the `quit`
branch of the dispatch neither clears the running flag nor cancels the
ticker), and only the runtime's cleanup after `arun` cancels it.
-/
theorem C6_counterexample :
    (runTrace [Choice.listener, Choice.listener, Choice.main]
        (initW [quitMsg])).map (fun s => (s.mainDone, s.tickerStatus, s.isRunning)) =
      Option.some (true, TickerStatus.asleep, true) := by
  decide

/--
Claim C6 (amended): when the worker's top-level run routine returns
after the shutdown signal is posted, the listener task has always
already completed; and on the `None` shutdown path — the one that clears
the running flag — the ticker task is also no longer pending
(cancellation requested or delivered, or completed).  On the `quit`
path, however, the ticker may still be pending when the run routine
returns, and is cancelled only by the runtime's cleanup after the run
call.
-/
theorem C6_main_return_task_states (msgs : List PyVal) (s : WState)
    (hr : Reach (initW msgs) s) (hm : s.mainDone = true) :
    s.lpc = LPC.done ∧
    (s.isRunning = false → s.tickerStatus ≠ TickerStatus.asleep) := by
  obtain ⟨_, h2, _, _, h5⟩ := WInv_reach msgs s hr
  exact ⟨h2 (Or.inr hm), h5⟩

/-- Witness for the amended C6: the `None` shutdown path run to
`arun`'s return. -/
theorem C6_main_return_task_states_witness :
    Reach (initW [PyVal.pynone])
      { isRunning := false, qQuit := 0, sent := [], inbox := [], ticks := 0,
        lpc := LPC.done, tickerStatus := TickerStatus.cancelRequested,
        mainDone := true, gotNone := true } ∧
    (({ isRunning := false, qQuit := 0, sent := [], inbox := [], ticks := 0,
        lpc := LPC.done, tickerStatus := TickerStatus.cancelRequested,
        mainDone := true, gotNone := true } : WState).lpc = LPC.done ∧
     (false = false →
       TickerStatus.cancelRequested ≠ TickerStatus.asleep)) := by
  have hstep1 : StepRel (initW [PyVal.pynone])
      { isRunning := false, qQuit := 1, sent := [], inbox := [], ticks := 0,
        lpc := LPC.done, tickerStatus := TickerStatus.cancelRequested,
        mainDone := false, gotNone := true } :=
    ⟨Choice.listener, by decide⟩
  have hstep2 : StepRel
      ({ isRunning := false, qQuit := 1, sent := [], inbox := [], ticks := 0,
         lpc := LPC.done, tickerStatus := TickerStatus.cancelRequested,
         mainDone := false, gotNone := true } : WState)
      { isRunning := false, qQuit := 0, sent := [], inbox := [], ticks := 0,
        lpc := LPC.done, tickerStatus := TickerStatus.cancelRequested,
        mainDone := true, gotNone := true } :=
    ⟨Choice.main, by decide⟩
  have hr : Reach (initW [PyVal.pynone])
      { isRunning := false, qQuit := 0, sent := [], inbox := [], ticks := 0,
        lpc := LPC.done, tickerStatus := TickerStatus.cancelRequested,
        mainDone := true, gotNone := true } :=
    Relation.ReflTransGen.head hstep1 (Relation.ReflTransGen.single hstep2)
  refine ⟨hr, ?_⟩
  exact C6_main_return_task_states [PyVal.pynone] _ hr rfl
